import Mathlib

/-!
Verification of the Signal entity (satellite-earth/signal, src/index.js):
a shallow embedding of the consensus-string codec, the parameter store, the
location resolver, the comparator, and the signing/verification wrappers,
together with theorems settling the specified properties.

The Torrent base class (signable message) is not part of this repository;
the pieces of it the Signal code relies on (addParams, the identity
comparator, signing/verification, the payload shape) are modelled from the
specification and marked as such in their doc comments.
-/

namespace SatSignal

/-- JavaScript runtime values as the Signal implementation uses them:
undefined, strings (as character lists), integral numbers, and NaN. -/
inductive JsVal where
  | undef : JsVal
  | str : List Char → JsVal
  | num : Int → JsVal
  | nan : JsVal
deriving DecidableEq

/-- JavaScript strict equality on the values above; NaN is unequal to
everything, including itself, and values of different types are unequal. -/
def jsStrictEq : JsVal → JsVal → Bool
  | .undef, .undef => true
  | .str a, .str b => a == b
  | .num a, .num b => a == b
  | _, _ => false

/-- JavaScript `typeof` for the modelled values. -/
def jsTypeof : JsVal → String
  | .undef => "undefined"
  | .str _ => "string"
  | .num _ => "number"
  | .nan => "number"

/-- JavaScript truthiness: undefined, NaN, 0 and the empty string are falsy. -/
def jsTruthy : JsVal → Bool
  | .undef => false
  | .nan => false
  | .num n => !(n == 0)
  | .str s => !s.isEmpty

/-- JavaScript string conversion as used by the template literal composing the
consensus string: undefined prints as "undefined", NaN as "NaN". -/
def jsToString : JsVal → List Char
  | .undef => "undefined".data
  | .nan => "NaN".data
  | .str s => s
  | .num n => (toString n).data

/-- JavaScript subtraction restricted to the values that reach it in compare
(blockNumber/timestamp getter results, which are numbers, NaN or undefined):
numbers subtract, any other operand yields NaN. -/
def jsSub : JsVal → JsVal → JsVal
  | .num a, .num b => .num (a - b)
  | _, _ => .nan

/-- Leading decimal digits of a string. -/
def leadingDigits (s : List Char) : List Char :=
  s.takeWhile (fun c => c.isDigit)

/-- Numeric value of a list of decimal digits. -/
def digitsVal (ds : List Char) : Int :=
  ds.foldl (fun a c => 10 * a + ((c.toNat : Int) - 48)) 0

/-- Embeds `parseInt` as the blockNumber/timestamp getters use it: a number
parses to itself, a decimal string (optionally signed) to its value, and
anything else to NaN. -/
def jsParseInt : JsVal → JsVal
  | .num n => .num n
  | .str ('-' :: t) =>
    if leadingDigits t = [] then .nan else .num (-(digitsVal (leadingDigits t)))
  | .str t =>
    if leadingDigits t = [] then .nan else .num (digitsVal (leadingDigits t))
  | _ => .nan

/-- Errors the Signal code can raise (each `throw Error(...)` site, plus the
runtime errors the flawed code paths produce). -/
inductive JsError where
  | missingRequiredParam
  | missingCollaborator
  | missingAnchor
  | missingSender
  | senderMismatch
  | notLocated
  | referenceError
  | typeError
deriving DecidableEq

/-- Look a key up in a JavaScript-object-like association list; absent keys
read as undefined. -/
def lookupKey (ps : List (String × JsVal)) (k : String) : JsVal :=
  match ps.find? (fun p => p.1 == k) with
  | none => .undef
  | some p => p.2

/-- JavaScript object assignment `o[k] = v`: overwrite an existing key in
place (keys are unique in an object), otherwise append the new key at the
end, preserving insertion order as Object.keys does. -/
def setKey : List (String × JsVal) → String → JsVal → List (String × JsVal)
  | [], k, v => [(k, v)]
  | p :: t, k, v => if p.1 = k then (k, v) :: t else p :: setKey t k v

/-- Modelled from the spec: `addParams` (Torrent base class, outside this
repository) merges new key/value pairs into the parameter mapping,
overwriting existing keys of the same name. -/
def addParams (ps new : List (String × JsVal)) : List (String × JsVal) :=
  new.foldl (fun acc kv => setKey acc kv.1 kv.2) ps

/-- Embeds the loop body of clearLocation: keep every parameter whose key is
neither "timestamp" nor "blockNumber", in order. -/
def clearLocationPs (ps : List (String × JsVal)) : List (String × JsVal) :=
  ps.filter (fun p => !(p.1 == "timestamp") && !(p.1 == "blockNumber"))

/-- The Signal entity: the signed field map (key "@" holds the consensus
string), the unsigned parameter map, the four claim fields, and the wrapped
message's unique creation identifier (modelled from the spec: the Torrent
base class supplies the identity used by its comparator). -/
structure Signal where
  signed : List (String × JsVal)
  params : List (String × JsVal)
  sender : JsVal
  action : JsVal
  epoch : JsVal
  block : JsVal
  uuid : Int
deriving DecidableEq

/-- Embeds the consensus getter: the "@" entry of the signed map. -/
def Signal.consensus (s : Signal) : JsVal :=
  lookupKey s.signed "@"

/-- Embeds the world getter: the raw "world" parameter. -/
def Signal.world (s : Signal) : JsVal :=
  lookupKey s.params "world"

/-- Embeds the blockNumber getter: undefined when the parameter is absent,
otherwise parseInt of the stored value. -/
def Signal.blockNumber (s : Signal) : JsVal :=
  match lookupKey s.params "blockNumber" with
  | .undef => .undef
  | v => jsParseInt v

/-- Embeds the timestamp getter: undefined when the parameter is absent,
otherwise parseInt of the stored value. -/
def Signal.timestamp (s : Signal) : JsVal :=
  match lookupKey s.params "timestamp" with
  | .undef => .undef
  | v => jsParseInt v

/-- Embeds the located getter: timestamp or blockNumber is defined. -/
def Signal.located (s : Signal) : Bool :=
  !(s.timestamp == .undef) || !(s.blockNumber == .undef)

/-- Embeds the standardParams getter: exactly the five reserved keys, each
read from the parameter map (undefined if absent). -/
def Signal.standardParams (s : Signal) : List (String × JsVal) :=
  [("sig", lookupKey s.params "sig"), ("alias", lookupKey s.params "alias"),
   ("world", lookupKey s.params "world"), ("timestamp", lookupKey s.params "timestamp"),
   ("blockNumber", lookupKey s.params "blockNumber")]

/-- Embeds the customParams getter: every parameter whose key is not among the
keys of standardParams. -/
def Signal.customParams (s : Signal) : List (String × JsVal) :=
  s.params.filter (fun p => !((s.standardParams.map Prod.fst).contains p.1))

/-- Embeds clearLocation: replace the parameter map by the kept entries. -/
def Signal.clearLocation (s : Signal) : Signal :=
  { s with params := clearLocationPs s.params }

/-- Embeds clearCustomParams. The loop body reads the undeclared identifier
`standardParams` (the declared local is `standardKeys`), so the first
iteration raises a ReferenceError; when the parameter map has no keys the
loop body never runs and the map is replaced by the empty object. -/
def Signal.clearCustomParams (s : Signal) : Except JsError Signal :=
  match s.params with
  | [] => .ok { s with params := [] }
  | _ :: _ => .error .referenceError

/-- Modelled from the spec: the wrapped message's identity-based comparator
(Torrent base class, outside this repository), a stable tiebreak on the
unique creation identifier. -/
def msgCompare (s that : Signal) : JsVal :=
  .num (s.uuid - that.uuid)

/-- Embeds compare: require both signals located; take blockNumber of each as
the keys, fall back to the timestamps when either blockNumber is undefined,
and delegate to the wrapped message's comparator when the chosen keys are
strictly equal, otherwise return their difference (ascending order). -/
def Signal.compare (s that : Signal) : Except JsError JsVal :=
  if !(s.located && that.located) then .error .notLocated
  else
    let i0 := s.blockNumber
    let i1 := that.blockNumber
    let j0 := if i0 == JsVal.undef || i1 == JsVal.undef then s.timestamp else i0
    let j1 := if i0 == JsVal.undef || i1 == JsVal.undef then that.timestamp else i1
    if jsStrictEq j0 j1 then .ok (msgCompare s that) else .ok (jsSub j0 j1)

/-- Block info as web3.eth.getBlock returns it (the two fields locate reads). -/
structure BlockInfo where
  blockNumber : JsVal
  timestamp : JsVal
deriving DecidableEq

/-- The chain-access collaborator: read block info by hash (undefined/null
result modelled as none). -/
structure Earth where
  getBlock : JsVal → Option BlockInfo

/-- Block info as the local clock's readHash returns it (note the field is
called number here, not blockNumber). -/
structure ClockInfo where
  number : JsVal
  timestamp : JsVal
deriving DecidableEq

/-- The local-clock collaborator: read cached block info by hash, with a
confirm flag. -/
structure Clock where
  readHash : JsVal → JsVal → Option ClockInfo

/-- What a locate call returns: the freshly merged params object on success,
or the signal itself (this) on a not-found lookup. -/
inductive LocateResult where
  | params (blockNumber timestamp : JsVal)
  | self
deriving DecidableEq

/-- Embeds locate: require a collaborator and a defined block anchor; on a
successful lookup merge blockNumber/timestamp into the parameter map and
return the pair, on a not-found lookup clear the location and return this. -/
def Signal.locate (s : Signal) (earth : Option Earth) :
    Except JsError (Signal × LocateResult) :=
  match earth with
  | none => .error .missingCollaborator
  | some e =>
    if s.block == JsVal.undef then .error .missingAnchor
    else
      match e.getBlock s.block with
      | some info =>
        let merged := addParams s.params
          [("blockNumber", info.blockNumber), ("timestamp", info.timestamp)]
        .ok ({ s with params := merged }, .params info.blockNumber info.timestamp)
      | none => .ok (s.clearLocation, .self)

/-- Embeds locateSync: identical contract, sourcing block info from the local
clock (whose result field is named number). -/
def Signal.locateSync (s : Signal) (earth : Option Clock) (confirm : JsVal) :
    Except JsError (Signal × LocateResult) :=
  match earth with
  | none => .error .missingCollaborator
  | some clk =>
    if s.block == JsVal.undef then .error .missingAnchor
    else
      match clk.readHash s.block confirm with
      | some info =>
        let merged := addParams s.params
          [("blockNumber", info.number), ("timestamp", info.timestamp)]
        .ok ({ s with params := merged }, .params info.number info.timestamp)
      | none => .ok (s.clearLocation, .self)

/-- One structured field of the EIP-712 domain separator. -/
structure DomainField where
  name : String
  type : String
  value : JsVal
deriving DecidableEq

/-- The extra domain-separator field every signing/verification call injects;
the source repeats this literal object at each of the three call sites. -/
def Signal.worldField (s : Signal) : DomainField :=
  { name := "name", type := "string", value := s.world }

/-- Embeds sign: delegate to the wrapped signable message (modelled from the
spec as an oracle, since the Torrent base class is outside this repository)
with the world-bound domain separator field. -/
def Signal.sign (s : Signal) (signOracle : List DomainField → Except JsError JsVal) :
    Except JsError JsVal :=
  signOracle [s.worldField]

/-- Embeds verify: fail when sender is undefined, delegate verification
(modelled from the spec as an oracle returning the cryptographically
recovered author alias), then fail unless the declared sender strictly
equals the recovered alias; on success return this. -/
def Signal.verify (s : Signal)
    (verifyOracle : List DomainField → Except JsError JsVal) :
    Except JsError Signal :=
  if s.sender == JsVal.undef then .error .missingSender
  else
    match verifyOracle [s.worldField] with
    | .error e => .error e
    | .ok authorAlias =>
      if !(jsStrictEq s.sender authorAlias) then .error .senderMismatch else .ok s

/-- Embeds verifySync: same contract as verify, forwarding the blockNumber
argument to the collaborator. -/
def Signal.verifySync (s : Signal)
    (verifyOracle : JsVal → List DomainField → Except JsError JsVal)
    (blockNumber : JsVal) :
    Except JsError Signal :=
  if s.sender == JsVal.undef then .error .missingSender
  else
    match verifyOracle blockNumber [s.worldField] with
    | .error e => .error e
    | .ok authorAlias =>
      if !(jsStrictEq s.sender authorAlias) then .error .senderMismatch else .ok s

/-- The literal separator " > " of the consensus string. -/
def sepChs : List Char := [' ', '>', ' ']

/-- Prepend a character to the first piece of a split result (the step the
split takes on a non-separator character). -/
def consFirst (c : Char) : List (List Char) → List (List Char)
  | [] => [[c]]
  | y :: ys => (c :: y) :: ys

/-- Embeds `consensus.split(' > ')`: leftmost, non-overlapping occurrences of
the three-character separator delimit the pieces. -/
def splitSep : List Char → List (List Char)
  | ' ' :: '>' :: ' ' :: rest => [] :: splitSep rest
  | c :: rest => consFirst c (splitSep rest)
  | [] => [[]]

/-- JavaScript array indexing `sp[i]`: undefined past the end. -/
def jsIndex (l : List (List Char)) (i : Nat) : JsVal :=
  match l[i]? with
  | none => .undef
  | some s => .str s

/-- Embeds the template literal composing the consensus string,
`sender > action > epoch > block` (each value JS-stringified). -/
def composeConsensus (sender action epoch block : JsVal) : List Char :=
  jsToString sender ++ sepChs ++ jsToString action ++ sepChs ++
    jsToString epoch ++ sepChs ++ jsToString block

/-- The deserialized payload handed to the constructor (wire shape, modelled
from the spec: a map of signed fields and a map of parameters). -/
structure Payload where
  signed : List (String × JsVal) := []
  params : List (String × JsVal) := []

/-- Explicit construction parameters; absent keys read as undefined. -/
structure SignalParams where
  sender : JsVal := .undef
  action : JsVal := .undef
  epoch : JsVal := .undef
  block : JsVal := .undef
  blockNumber : JsVal := .undef
  timestamp : JsVal := .undef
  world : JsVal := .undef
deriving DecidableEq

/-- The four mandatory claim field names the constructor's guard iterates. -/
def requiredParamNames : List String :=
  ["sender", "action", "epoch", "block"]

/-- Embeds the constructor's guard loop. It mirrors the source's
`typeof param === 'undefined'`, which tests the loop variable param itself (a
string literal) rather than signalParams[param]; a string's typeof is never
"undefined", so the guard never fires. -/
def missingRequiredCheck : Bool :=
  requiredParamNames.any (fun param => jsTypeof (.str param.data) == "undefined")

/-- Embeds the constructor. With explicit signalParams: run the (ineffective)
required-field guard, assign the four claim fields, store the optional
blockNumber/timestamp/world coordinates, and write the composed consensus
string into the signed map under "@". Without signalParams: when a truthy
consensus string is present, split it on " > " and take the first four
pieces positionally. Otherwise leave the claim fields undefined. -/
def construct (payload : Option Payload) (signalParams : Option SignalParams)
    (uuid : Int) : Except JsError Signal :=
  let base : Signal :=
    { signed := (payload.map Payload.signed).getD []
      params := (payload.map Payload.params).getD []
      sender := .undef, action := .undef, epoch := .undef, block := .undef
      uuid := uuid }
  match signalParams with
  | some sp =>
    if missingRequiredCheck then .error .missingRequiredParam
    else
      let s1 : Signal :=
        { base with sender := sp.sender, action := sp.action,
                    epoch := sp.epoch, block := sp.block }
      let ps1 := if sp.blockNumber == JsVal.undef then s1.params
                 else setKey s1.params "blockNumber" sp.blockNumber
      let ps2 := if sp.timestamp == JsVal.undef then ps1
                 else setKey ps1 "timestamp" sp.timestamp
      let ps3 := if sp.world == JsVal.undef then ps2
                 else setKey ps2 "world" sp.world
      let sg := setKey s1.signed "@"
        (.str (composeConsensus s1.sender s1.action s1.epoch s1.block))
      .ok { s1 with params := ps3, signed := sg }
  | none =>
    if jsTruthy base.consensus then
      match base.consensus with
      | .str cs =>
        let sp := splitSep cs
        .ok { base with sender := jsIndex sp 0, action := jsIndex sp 1,
                        epoch := jsIndex sp 2, block := jsIndex sp 3 }
      | _ => .error .typeError
    else .ok base

/-- Strictly-before in the comparator's order: a negative numeric result. -/
def SigLT (a b : Signal) : Prop :=
  ∃ n : Int, a.compare b = .ok (.num n) ∧ n < 0

instance {ε α : Type} [DecidableEq ε] [DecidableEq α] : DecidableEq (Except ε α) :=
  fun a b =>
  match a, b with
  | .ok x, .ok y => if h : x = y then .isTrue (by rw [h]) else .isFalse (by simp [h])
  | .error x, .error y => if h : x = y then .isTrue (by rw [h]) else .isFalse (by simp [h])
  | .ok _, .error _ => .isFalse (by simp)
  | .error _, .ok _ => .isFalse (by simp)

theorem splitSep_cons (c : Char) (t : List Char) (h : ¬ sepChs <+: (c :: t)) :
    splitSep (c :: t) = consFirst c (splitSep t) := by
  refine splitSep.eq_2 c t ?_
  intro r hc ht
  exact h (by rw [hc, ht]; exact ⟨r, rfl⟩)

theorem splitSep_sep_append (t : List Char) :
    splitSep (sepChs ++ t) = [] :: splitSep t := rfl

/-- If a string neither contains the separator nor ends in " >", the split of
`s ++ " > " ++ rest` peels off s as the first piece. -/
theorem splitSep_append (s rest : List Char) (hinf : ¬ sepChs <:+: s)
    (hsuf : ¬ [' ', '>'] <:+ s) :
    splitSep (s ++ sepChs ++ rest) = s :: splitSep rest := by
  induction s with
  | nil => simpa using splitSep_sep_append rest
  | cons c s ih =>
    have hinf' : ¬ sepChs <:+: s := fun ⟨u, v, huv⟩ => hinf ⟨c :: u, v, by simp [← huv]⟩
    have hsuf' : ¬ [' ', '>'] <:+ s := fun ⟨u, hu⟩ => hsuf ⟨c :: u, by simp [← hu]⟩
    have hnp : ¬ sepChs <+: (c :: (s ++ sepChs ++ rest)) := by
      intro hp
      match s, hp with
      | [], ⟨u, hu⟩ =>
        simp [sepChs, List.cons_eq_cons] at hu
      | [x], ⟨u, hu⟩ =>
        simp [sepChs, List.cons_eq_cons] at hu
        obtain ⟨hc, hx, -⟩ := hu
        exact hsuf ⟨[], by simp [← hc, ← hx]⟩
      | x :: y :: s', ⟨u, hu⟩ =>
        simp [sepChs, List.cons_eq_cons] at hu
        obtain ⟨hc, hx, hy, -⟩ := hu
        exact hinf ⟨[], s', by simp [← hc, ← hx, ← hy, sepChs]⟩
    calc splitSep (c :: s ++ sepChs ++ rest)
        = consFirst c (splitSep (s ++ sepChs ++ rest)) := by
          simpa using splitSep_cons c (s ++ sepChs ++ rest) hnp
      _ = consFirst c (s :: splitSep rest) := by rw [ih hinf' hsuf']
      _ = (c :: s) :: splitSep rest := rfl

/-- A string not containing the separator splits into just itself. -/
theorem splitSep_no_sep (s : List Char) (hinf : ¬ sepChs <:+: s) :
    splitSep s = [s] := by
  induction s with
  | nil => rfl
  | cons c s ih =>
    have hinf' : ¬ sepChs <:+: s := fun ⟨u, v, huv⟩ => hinf ⟨c :: u, v, by simp [← huv]⟩
    have hnp : ¬ sepChs <+: (c :: s) := fun hp => hinf hp.isInfix
    rw [splitSep_cons c s hnp, ih hinf']
    rfl

/-- The constructor's parse branch: with a nonempty consensus string under "@"
and no explicit params, the four claim fields are the first four pieces of
the split (undefined where the split is too short). -/
theorem construct_parse_fields (cs : List Char) (hne : cs ≠ []) (u : Int) :
    construct (some ⟨[("@", .str cs)], []⟩) none u =
      .ok ⟨[("@", .str cs)], [], jsIndex (splitSep cs) 0, jsIndex (splitSep cs) 1,
           jsIndex (splitSep cs) 2, jsIndex (splitSep cs) 3, u⟩ := by
  have htr : jsTruthy (JsVal.str cs) = true := by
    cases cs with
    | nil => exact absurd rfl hne
    | cons c t => rfl
  simp [construct, Signal.consensus, lookupKey, htr]

/-- Splitting a composed consensus string recovers the four fields, provided
no field contains the separator and the first three do not end in " >". -/
theorem splitSep_compose (f1 f2 f3 f4 : List Char)
    (h1 : ¬ sepChs <:+: f1) (h2 : ¬ sepChs <:+: f2) (h3 : ¬ sepChs <:+: f3)
    (h4 : ¬ sepChs <:+: f4) (e1 : ¬ [' ', '>'] <:+ f1) (e2 : ¬ [' ', '>'] <:+ f2)
    (e3 : ¬ [' ', '>'] <:+ f3) :
    splitSep (composeConsensus (.str f1) (.str f2) (.str f3) (.str f4)) =
      [f1, f2, f3, f4] := by
  have key : composeConsensus (.str f1) (.str f2) (.str f3) (.str f4)
      = f1 ++ sepChs ++ (f2 ++ sepChs ++ (f3 ++ sepChs ++ f4)) := by
    simp [composeConsensus, jsToString, List.append_assoc]
  rw [key, splitSep_append f1 _ h1 e1, splitSep_append f2 _ h2 e2,
    splitSep_append f3 _ h3 e3, splitSep_no_sep f4 h4]

/-- C3 (amended): composing the consensus string from four fields that do not
contain the separator " > " and then constructing a Signal from a payload
whose "@" field is that string recovers exactly the original four values,
provided additionally that none of sender, action, epoch ends with the
two-character suffix " >" (without that extra condition the claim fails: the
field boundary and the separator can merge, see the counterexample). -/
theorem C3_compose_parse_roundTrip (f1 f2 f3 f4 : List Char) (u : Int)
    (h1 : ¬ sepChs <:+: f1) (h2 : ¬ sepChs <:+: f2) (h3 : ¬ sepChs <:+: f3)
    (h4 : ¬ sepChs <:+: f4) (e1 : ¬ [' ', '>'] <:+ f1) (e2 : ¬ [' ', '>'] <:+ f2)
    (e3 : ¬ [' ', '>'] <:+ f3) :
    construct (some ⟨[("@", .str (composeConsensus (.str f1) (.str f2) (.str f3) (.str f4)))], []⟩) none u =
      .ok ⟨[("@", .str (composeConsensus (.str f1) (.str f2) (.str f3) (.str f4)))], [],
           .str f1, .str f2, .str f3, .str f4, u⟩ := by
  have hsp := splitSep_compose f1 f2 f3 f4 h1 h2 h3 h4 e1 e2 e3
  have hne : composeConsensus (.str f1) (.str f2) (.str f3) (.str f4) ≠ [] := by
    intro h
    rw [h] at hsp
    have hlen := congrArg List.length hsp
    simp [splitSep] at hlen
  rw [construct_parse_fields _ hne, hsp]
  simp [jsIndex]

/-- Witness for C3: a concrete claim round-trips through compose and parse. -/
theorem C3_compose_parse_roundTrip_witness :
    construct (some ⟨[("@", .str (composeConsensus (.str "alice".data) (.str "vote".data) (.str "3".data) (.str "0xaa".data)))], []⟩) none 5 =
      .ok ⟨[("@", .str (composeConsensus (.str "alice".data) (.str "vote".data) (.str "3".data) (.str "0xaa".data)))], [],
           .str "alice".data, .str "vote".data, .str "3".data, .str "0xaa".data, 5⟩ :=
  C3_compose_parse_roundTrip "alice".data "vote".data "3".data "0xaa".data 5
    (by decide) (by decide) (by decide) (by decide) (by decide) (by decide) (by decide)

/-- C3 counterexample: none of the four fields contains the separator " > ",
yet parsing the composed string does not return the original sender. With
sender "a >" the composed string is "a > > b > c > d", whose leftmost
separator occurrence starts inside the sender, so parsing yields sender "a"
(and action "> b") instead of "a >". -/
theorem C3_roundTrip_counterexample :
    (¬ sepChs <:+: "a >".data) ∧ (¬ sepChs <:+: "b".data) ∧
    (¬ sepChs <:+: "c".data) ∧ (¬ sepChs <:+: "d".data) ∧
    construct (some ⟨[("@", .str (composeConsensus (.str "a >".data) (.str "b".data) (.str "c".data) (.str "d".data)))], []⟩) none 0 =
      .ok ⟨[("@", .str (composeConsensus (.str "a >".data) (.str "b".data) (.str "c".data) (.str "d".data)))], [],
           .str "a".data, .str "> b".data, .str "c".data, .str "d".data, 0⟩ ∧
    JsVal.str "a".data ≠ .str "a >".data := by decide

/-- C7 (amended): constructing from a nonempty consensus string that splits
into fewer than four " > "-separated pieces leaves the block field (at
least) undefined, so the malformed payload is detectable; with four or more
pieces all four fields are populated (any extra pieces are silently
ignored, see the counterexample). -/
theorem C7_parse_shape (cs : List Char) (hne : cs ≠ []) (u : Int) :
    ((splitSep cs).length < 4 →
      Except.map Signal.block (construct (some ⟨[("@", .str cs)], []⟩) none u) =
        .ok .undef)
    ∧ (4 ≤ (splitSep cs).length →
      Except.map Signal.sender (construct (some ⟨[("@", .str cs)], []⟩) none u) ≠ .ok .undef
      ∧ Except.map Signal.action (construct (some ⟨[("@", .str cs)], []⟩) none u) ≠ .ok .undef
      ∧ Except.map Signal.epoch (construct (some ⟨[("@", .str cs)], []⟩) none u) ≠ .ok .undef
      ∧ Except.map Signal.block (construct (some ⟨[("@", .str cs)], []⟩) none u) ≠ .ok .undef) := by
  rw [construct_parse_fields cs hne u]
  constructor
  · intro hlt
    have h3 : (splitSep cs)[3]? = none := List.getElem?_eq_none (by omega)
    simp [Except.map, jsIndex, h3]
  · intro hge
    have g0 : 0 < (splitSep cs).length := by omega
    have g1 : 1 < (splitSep cs).length := by omega
    have g2 : 2 < (splitSep cs).length := by omega
    have g3 : 3 < (splitSep cs).length := by omega
    refine ⟨?_, ?_, ?_, ?_⟩ <;>
      simp [Except.map, jsIndex, List.getElem?_eq_getElem, g0, g1, g2, g3]

/-- Witness for C7: the two-piece string "a > b" leaves block undefined. -/
theorem C7_parse_shape_witness :
    Except.map Signal.block (construct (some ⟨[("@", .str "a > b".data)], []⟩) none 0) =
      .ok .undef :=
  (C7_parse_shape "a > b".data (by decide) 0).1 (by decide)

/-- C7 counterexample: a consensus string with five " > "-separated pieces is
not surfaced as invalid; construction succeeds, all four fields are defined
(the fifth piece is silently dropped), contradicting the claim that every
non-four-piece string fails or yields undefined fields. -/
theorem C7_counterexample :
    (splitSep "a > b > c > d > e".data).length = 5 ∧
    construct (some ⟨[("@", .str "a > b > c > d > e".data)], []⟩) none 0 =
      .ok ⟨[("@", .str "a > b > c > d > e".data)], [],
           .str "a".data, .str "b".data, .str "c".data, .str "d".data, 0⟩ := by decide

theorem num_beq_undef (x : Int) : (JsVal.num x == JsVal.undef) = false := rfl

theorem compare_not_located (a b : Signal)
    (h : ¬ (a.located = true ∧ b.located = true)) :
    a.compare b = .error .notLocated := by
  have hf : (a.located && b.located) = false := by
    cases hA : a.located <;> cases hB : b.located <;> simp_all
  simp [Signal.compare, hf]

/-- When both blockNumbers read as numbers, compare uses them: equal values
delegate to the wrapped message's comparator, otherwise their difference. -/
theorem compare_num_num (a b : Signal) (x y : Int)
    (ha : a.blockNumber = .num x) (hb : b.blockNumber = .num y) :
    a.compare b = .ok (if x = y then msgCompare a b else .num (x - y)) := by
  have hla : a.located = true := by simp [Signal.located, ha]
  have hlb : b.located = true := by simp [Signal.located, hb]
  by_cases hxy : x = y
  · subst hxy
    simp [Signal.compare, hla, hlb, ha, hb, jsStrictEq]
  · simp [Signal.compare, hla, hlb, ha, hb, jsStrictEq, jsSub, hxy]

/-- When either blockNumber is undefined (and both signals are located),
compare uses the timestamps: strictly equal values delegate to the wrapped
message's comparator, otherwise their JS difference. -/
theorem compare_either_undef (a b : Signal)
    (h : a.blockNumber = .undef ∨ b.blockNumber = .undef)
    (hla : a.located = true) (hlb : b.located = true) :
    a.compare b = if jsStrictEq a.timestamp b.timestamp then .ok (msgCompare a b)
      else .ok (jsSub a.timestamp b.timestamp) := by
  have hor : (a.blockNumber == JsVal.undef || b.blockNumber == JsVal.undef) = true := by
    cases h with
    | inl h => simp [h]
    | inr h => simp [h]
  simp [Signal.compare, hla, hlb, hor]

/-- C5: compare fails with NotLocated unless both signals are located;
otherwise it orders ascending by blockNumber as the primary key (returning
the difference of the two numeric values); if either blockNumber is
undefined it orders ascending by timestamp instead (returning the JS
difference of the two timestamps); and when the chosen pair of values is
strictly equal it delegates to the wrapped message's identity comparator. -/
theorem C5_compare_contract (a b : Signal) (x y : Int) :
    (¬ (a.located = true ∧ b.located = true) → a.compare b = .error .notLocated)
    ∧ (a.blockNumber = .num x → b.blockNumber = .num y → x ≠ y →
        a.compare b = .ok (.num (x - y)))
    ∧ ((a.blockNumber = .undef ∨ b.blockNumber = .undef) →
        a.located = true → b.located = true →
        (jsStrictEq a.timestamp b.timestamp = false →
          a.compare b = .ok (jsSub a.timestamp b.timestamp))
        ∧ (jsStrictEq a.timestamp b.timestamp = true →
          a.compare b = .ok (msgCompare a b)))
    ∧ (a.blockNumber = .num x → b.blockNumber = .num x →
        a.compare b = .ok (msgCompare a b)) := by
  refine ⟨compare_not_located a b, ?_, ?_, ?_⟩
  · intro ha hb hxy
    rw [compare_num_num a b x y ha hb]
    simp [hxy]
  · intro h hla hlb
    rw [compare_either_undef a b h hla hlb]
    constructor
    · intro hne
      simp [hne]
    · intro heq
      simp [heq]
  · intro ha hb
    rw [compare_num_num a b x x ha hb]
    simp

/-- Witness for C5: each branch of the contract on concrete signals. -/
theorem C5_compare_contract_witness :
    (⟨[], [], .undef, .undef, .undef, .undef, 0⟩ : Signal).compare
        ⟨[], [], .undef, .undef, .undef, .undef, 0⟩ = .error .notLocated
    ∧ (⟨[], [("blockNumber", .num 10)], .undef, .undef, .undef, .undef, 1⟩ : Signal).compare
        ⟨[], [("blockNumber", .num 12)], .undef, .undef, .undef, .undef, 2⟩ = .ok (.num (10 - 12))
    ∧ (⟨[], [("timestamp", .num 5)], .undef, .undef, .undef, .undef, 3⟩ : Signal).compare
        ⟨[], [("timestamp", .num 9)], .undef, .undef, .undef, .undef, 4⟩ = .ok (.num (5 - 9))
    ∧ (⟨[], [("blockNumber", .num 10)], .undef, .undef, .undef, .undef, 7⟩ : Signal).compare
        ⟨[], [("blockNumber", .num 10)], .undef, .undef, .undef, .undef, 3⟩ = .ok (.num (7 - 3)) :=
  ⟨(C5_compare_contract _ _ 0 0).1 (by decide),
   (C5_compare_contract _ _ 10 12).2.1 rfl rfl (by decide),
   ((C5_compare_contract ⟨[], [("timestamp", .num 5)], .undef, .undef, .undef, .undef, 3⟩
      ⟨[], [("timestamp", .num 9)], .undef, .undef, .undef, .undef, 4⟩ 0 0).2.2.1
      (Or.inl rfl) rfl rfl).1 rfl,
   (C5_compare_contract _ _ 10 10).2.2.2 rfl rfl⟩

/-- C6 counterexample: two located signals with equal blockNumber 10 and
strictly increasing timestamps (1 then 2). A timestamp fallback would order
the first before the second (a negative result), but compare returns the
positive identity difference 5 - 3 = 2: on equal blockNumbers the
timestamps are never consulted. -/
theorem C6_counterexample :
    (⟨[], [("blockNumber", .num 10), ("timestamp", .num 1)], .undef, .undef, .undef, .undef, 5⟩ : Signal).timestamp = .num 1
    ∧ (⟨[], [("blockNumber", .num 10), ("timestamp", .num 2)], .undef, .undef, .undef, .undef, 3⟩ : Signal).timestamp = .num 2
    ∧ (⟨[], [("blockNumber", .num 10), ("timestamp", .num 1)], .undef, .undef, .undef, .undef, 5⟩ : Signal).compare
        ⟨[], [("blockNumber", .num 10), ("timestamp", .num 2)], .undef, .undef, .undef, .undef, 3⟩ = .ok (.num 2)
    ∧ ¬ ((2 : Int) < 0) := by decide

/-- C6 (amended): for two located signals with equal numeric blockNumber the
comparator delegates directly to the wrapped message's identity tiebreak
(the timestamps are not consulted), producing a deterministic result that
is nonzero whenever the identities differ. -/
theorem C6_equal_blockNumber (a b : Signal) (x : Int)
    (ha : a.blockNumber = .num x) (hb : b.blockNumber = .num x) :
    a.compare b = .ok (.num (a.uuid - b.uuid))
    ∧ (a.uuid ≠ b.uuid → a.compare b ≠ .ok (.num 0)) := by
  have h := compare_num_num a b x x ha hb
  simp [msgCompare] at h
  refine ⟨h, fun hne heq => ?_⟩
  rw [h] at heq
  simp at heq
  omega

/-- Witness for C6: the counterexample pair, through the amended statement. -/
theorem C6_equal_blockNumber_witness :
    (⟨[], [("blockNumber", .num 10), ("timestamp", .num 1)], .undef, .undef, .undef, .undef, 7⟩ : Signal).compare
        ⟨[], [("blockNumber", .num 10), ("timestamp", .num 2)], .undef, .undef, .undef, .undef, 3⟩ = .ok (.num (7 - 3))
    ∧ ((7 : Int) ≠ 3 →
      (⟨[], [("blockNumber", .num 10), ("timestamp", .num 1)], .undef, .undef, .undef, .undef, 7⟩ : Signal).compare
        ⟨[], [("blockNumber", .num 10), ("timestamp", .num 2)], .undef, .undef, .undef, .undef, 3⟩ ≠ .ok (.num 0)) :=
  C6_equal_blockNumber _ _ 10 rfl rfl

/-- The comparator's strict order is lexicographic in (blockNumber, uuid)
when both blockNumbers are numeric. -/
theorem SigLT_iff_num (a b : Signal) (x y : Int)
    (ha : a.blockNumber = .num x) (hb : b.blockNumber = .num y) :
    SigLT a b ↔ (x < y ∨ (x = y ∧ a.uuid < b.uuid)) := by
  unfold SigLT
  rw [compare_num_num a b x y ha hb]
  by_cases hxy : x = y
  · subst hxy
    simp [msgCompare]
  · simp [msgCompare, hxy]

/-- The comparator's strict order is lexicographic in (timestamp, uuid) when
both blockNumbers are undefined and the timestamps are numeric. -/
theorem SigLT_iff_ts (a b : Signal) (tx ty : Int)
    (ha : a.blockNumber = .undef) (hb : b.blockNumber = .undef)
    (hta : a.timestamp = .num tx) (htb : b.timestamp = .num ty) :
    SigLT a b ↔ (tx < ty ∨ (tx = ty ∧ a.uuid < b.uuid)) := by
  have hla : a.located = true := by simp [Signal.located, hta]
  have hlb : b.located = true := by simp [Signal.located, htb]
  unfold SigLT
  rw [compare_either_undef a b (Or.inl ha) hla hlb, hta, htb]
  by_cases hxy : tx = ty
  · subst hxy
    simp [jsStrictEq, msgCompare]
  · simp [jsStrictEq, msgCompare, jsSub, hxy]

/-- C4 (amended): among located signals that either all carry a numeric
blockNumber or all lack blockNumber while carrying numeric timestamps, the
comparator is a strict total order: asymmetric, transitive, and (given the
wrapped message's identity tiebreak distinguishes the two signals) without
ties. Without the uniformity condition the claim fails, see the
counterexample. -/
theorem C4_strict_total_order (a b c : Signal)
    (hu : (∃ xa xb xc : Int, a.blockNumber = .num xa ∧ b.blockNumber = .num xb
            ∧ c.blockNumber = .num xc)
        ∨ (a.blockNumber = .undef ∧ b.blockNumber = .undef ∧ c.blockNumber = .undef
            ∧ ∃ ta tb tc : Int, a.timestamp = .num ta ∧ b.timestamp = .num tb
            ∧ c.timestamp = .num tc)) :
    (SigLT a b → ¬ SigLT b a)
    ∧ (SigLT a b → SigLT b c → SigLT a c)
    ∧ (a.uuid ≠ b.uuid → SigLT a b ∨ SigLT b a) := by
  rcases hu with ⟨xa, xb, xc, ha, hb, hc⟩ | ⟨ha, hb, hc, ta, tb, tc, hta, htb, htc⟩
  · rw [SigLT_iff_num a b xa xb ha hb, SigLT_iff_num b a xb xa hb ha,
      SigLT_iff_num b c xb xc hb hc, SigLT_iff_num a c xa xc ha hc]
    omega
  · rw [SigLT_iff_ts a b ta tb ha hb hta htb, SigLT_iff_ts b a tb ta hb ha htb hta,
      SigLT_iff_ts b c tb tc hb hc htb htc, SigLT_iff_ts a c ta tc ha hc hta htc]
    omega

/-- Witness for C4: three concrete all-blockNumber signals. -/
theorem C4_strict_total_order_witness :
    (SigLT ⟨[], [("blockNumber", .num 10)], .undef, .undef, .undef, .undef, 1⟩
        ⟨[], [("blockNumber", .num 12)], .undef, .undef, .undef, .undef, 2⟩ →
      ¬ SigLT ⟨[], [("blockNumber", .num 12)], .undef, .undef, .undef, .undef, 2⟩
        ⟨[], [("blockNumber", .num 10)], .undef, .undef, .undef, .undef, 1⟩)
    ∧ (SigLT ⟨[], [("blockNumber", .num 10)], .undef, .undef, .undef, .undef, 1⟩
        ⟨[], [("blockNumber", .num 12)], .undef, .undef, .undef, .undef, 2⟩ →
      SigLT ⟨[], [("blockNumber", .num 12)], .undef, .undef, .undef, .undef, 2⟩
        ⟨[], [("blockNumber", .num 15)], .undef, .undef, .undef, .undef, 3⟩ →
      SigLT ⟨[], [("blockNumber", .num 10)], .undef, .undef, .undef, .undef, 1⟩
        ⟨[], [("blockNumber", .num 15)], .undef, .undef, .undef, .undef, 3⟩)
    ∧ ((1 : Int) ≠ 2 →
      SigLT ⟨[], [("blockNumber", .num 10)], .undef, .undef, .undef, .undef, 1⟩
        ⟨[], [("blockNumber", .num 12)], .undef, .undef, .undef, .undef, 2⟩
      ∨ SigLT ⟨[], [("blockNumber", .num 12)], .undef, .undef, .undef, .undef, 2⟩
        ⟨[], [("blockNumber", .num 10)], .undef, .undef, .undef, .undef, 1⟩) :=
  C4_strict_total_order _ _ _ (Or.inl ⟨10, 12, 15, rfl, rfl, rfl⟩)

/-- C4 counterexample: three located signals, two with numeric blockNumbers
(10 and 5) and timestamps 1 and 3, one with only a timestamp (2). The first
precedes the second (timestamps, as the middle signal has no blockNumber),
the second precedes the third (timestamps again), yet the first follows the
third (blockNumbers): the order is not transitive, hence not a strict total
order. -/
theorem C4_counterexample :
    (⟨[], [("blockNumber", .num 10), ("timestamp", .num 1)], .undef, .undef, .undef, .undef, 1⟩ : Signal).compare
        ⟨[], [("timestamp", .num 2)], .undef, .undef, .undef, .undef, 2⟩ = .ok (.num (-1))
    ∧ (⟨[], [("timestamp", .num 2)], .undef, .undef, .undef, .undef, 2⟩ : Signal).compare
        ⟨[], [("blockNumber", .num 5), ("timestamp", .num 3)], .undef, .undef, .undef, .undef, 3⟩ = .ok (.num (-1))
    ∧ (⟨[], [("blockNumber", .num 10), ("timestamp", .num 1)], .undef, .undef, .undef, .undef, 1⟩ : Signal).compare
        ⟨[], [("blockNumber", .num 5), ("timestamp", .num 3)], .undef, .undef, .undef, .undef, 3⟩ = .ok (.num 5)
    ∧ ¬ ((5 : Int) < 0) := by decide

theorem lookupKey_nil (k : String) : lookupKey [] k = .undef := rfl

theorem lookupKey_cons (p : String × JsVal) (ps : List (String × JsVal)) (k : String) :
    lookupKey (p :: ps) k = if p.1 = k then p.2 else lookupKey ps k := by
  by_cases h : p.1 = k
  · have hb : (p.1 == k) = true := by simp [h]
    simp [lookupKey, List.find?, hb, h]
  · have hb : (p.1 == k) = false := by simp [h]
    simp [lookupKey, List.find?, hb, h]

theorem clearLocationPs_cons (p : String × JsVal) (ps : List (String × JsVal)) :
    clearLocationPs (p :: ps) =
      if p.1 = "timestamp" ∨ p.1 = "blockNumber" then clearLocationPs ps
      else p :: clearLocationPs ps := by
  by_cases h1 : p.1 = "timestamp"
  · simp [clearLocationPs, h1]
  · by_cases h2 : p.1 = "blockNumber"
    · simp [clearLocationPs, h1, h2]
    · simp [clearLocationPs, h1, h2]

theorem lookupKey_setKey_self (ps : List (String × JsVal)) (k : String) (v : JsVal) :
    lookupKey (setKey ps k v) k = v := by
  induction ps with
  | nil => simp [setKey, lookupKey_cons]
  | cons p t ih =>
    by_cases hp : p.1 = k
    · simp [setKey, hp, lookupKey_cons]
    · simp [setKey, hp, lookupKey_cons, ih]

theorem lookupKey_setKey_other (ps : List (String × JsVal)) (k k' : String) (v : JsVal)
    (h : k' ≠ k) :
    lookupKey (setKey ps k v) k' = lookupKey ps k' := by
  have hk : k ≠ k' := fun hx => h hx.symm
  induction ps with
  | nil => simp [setKey, lookupKey_cons, lookupKey_nil, hk]
  | cons p t ih =>
    by_cases hp : p.1 = k
    · simp [setKey, hp, lookupKey_cons, hk]
    · simp [setKey, hp, lookupKey_cons, ih]

theorem lookupKey_clearLocation_ts (ps : List (String × JsVal)) :
    lookupKey (clearLocationPs ps) "timestamp" = .undef := by
  induction ps with
  | nil => rfl
  | cons p t ih =>
    rw [clearLocationPs_cons]
    by_cases h1 : p.1 = "timestamp" ∨ p.1 = "blockNumber"
    · simp [h1, ih]
    · have hk : p.1 ≠ "timestamp" := fun hx => h1 (Or.inl hx)
      have hk2 : p.1 ≠ "blockNumber" := fun hx => h1 (Or.inr hx)
      simp [h1, lookupKey_cons, hk, hk2, ih]

theorem lookupKey_clearLocation_bn (ps : List (String × JsVal)) :
    lookupKey (clearLocationPs ps) "blockNumber" = .undef := by
  induction ps with
  | nil => rfl
  | cons p t ih =>
    rw [clearLocationPs_cons]
    by_cases h1 : p.1 = "timestamp" ∨ p.1 = "blockNumber"
    · simp [h1, ih]
    · have hk : p.1 ≠ "blockNumber" := fun hx => h1 (Or.inr hx)
      have hk2 : p.1 ≠ "timestamp" := fun hx => h1 (Or.inl hx)
      simp [h1, lookupKey_cons, hk, hk2, ih]

theorem lookupKey_clearLocation_other (ps : List (String × JsVal)) (k : String)
    (h1 : k ≠ "blockNumber") (h2 : k ≠ "timestamp") :
    lookupKey (clearLocationPs ps) k = lookupKey ps k := by
  induction ps with
  | nil => rfl
  | cons p t ih =>
    rw [clearLocationPs_cons]
    by_cases hp : p.1 = "timestamp" ∨ p.1 = "blockNumber"
    · have hk : p.1 ≠ k := by
        cases hp with
        | inl hx => rw [hx]; exact fun he => h2 he.symm
        | inr hx => rw [hx]; exact fun he => h1 he.symm
      simp [hp, lookupKey_cons, hk, ih]
    · simp [hp, lookupKey_cons, ih]

theorem located_clearLocation (s : Signal) : (s.clearLocation).located = false := by
  simp [Signal.located, Signal.timestamp, Signal.blockNumber, Signal.clearLocation,
    lookupKey_clearLocation_ts, lookupKey_clearLocation_bn]

/-- C8: locate and locateSync fail with MissingCollaborator when no
collaborator is supplied and with MissingAnchor when block is undefined; on
a successful lookup they merge the returned blockNumber and timestamp into
the parameter store and return that pair; on a not-found result they remove
only the timestamp and blockNumber parameters, leaving located false and
every other parameter (custom ones included) unchanged. -/
theorem C8_locate_contract (s : Signal) (e : Earth) (clk : Clock)
    (confirm : JsVal) (bi : BlockInfo) (ci : ClockInfo) (k : String) :
    (s.locate none = .error .missingCollaborator)
    ∧ (s.locateSync none confirm = .error .missingCollaborator)
    ∧ (s.block = .undef → s.locate (some e) = .error .missingAnchor)
    ∧ (s.block = .undef → s.locateSync (some clk) confirm = .error .missingAnchor)
    ∧ (s.block ≠ .undef → e.getBlock s.block = some bi →
        s.locate (some e) =
          .ok ({ s with params := (addParams s.params
                  [("blockNumber", bi.blockNumber), ("timestamp", bi.timestamp)]) },
               .params bi.blockNumber bi.timestamp)
        ∧ lookupKey (addParams s.params
            [("blockNumber", bi.blockNumber), ("timestamp", bi.timestamp)]) "blockNumber"
            = bi.blockNumber
        ∧ lookupKey (addParams s.params
            [("blockNumber", bi.blockNumber), ("timestamp", bi.timestamp)]) "timestamp"
            = bi.timestamp
        ∧ (k ≠ "blockNumber" → k ≠ "timestamp" →
            lookupKey (addParams s.params
              [("blockNumber", bi.blockNumber), ("timestamp", bi.timestamp)]) k
              = lookupKey s.params k))
    ∧ (s.block ≠ .undef → e.getBlock s.block = none →
        s.locate (some e) = .ok (s.clearLocation, .self)
        ∧ (s.clearLocation).located = false
        ∧ lookupKey (s.clearLocation).params "timestamp" = .undef
        ∧ lookupKey (s.clearLocation).params "blockNumber" = .undef
        ∧ (k ≠ "blockNumber" → k ≠ "timestamp" →
            lookupKey (s.clearLocation).params k = lookupKey s.params k))
    ∧ (s.block ≠ .undef → clk.readHash s.block confirm = some ci →
        s.locateSync (some clk) confirm =
          .ok ({ s with params := (addParams s.params
                  [("blockNumber", ci.number), ("timestamp", ci.timestamp)]) },
               .params ci.number ci.timestamp))
    ∧ (s.block ≠ .undef → clk.readHash s.block confirm = none →
        s.locateSync (some clk) confirm = .ok (s.clearLocation, .self)) := by
  have haddbn : ∀ b t : JsVal, lookupKey (addParams s.params [("blockNumber", b), ("timestamp", t)]) "blockNumber" = b := by
    intro b t
    rw [addParams]
    simp only [List.foldl]
    rw [lookupKey_setKey_other _ "timestamp" "blockNumber" t (by decide),
      lookupKey_setKey_self]
  have haddts : ∀ b t : JsVal, lookupKey (addParams s.params [("blockNumber", b), ("timestamp", t)]) "timestamp" = t := by
    intro b t
    rw [addParams]
    simp only [List.foldl]
    rw [lookupKey_setKey_self]
  refine ⟨rfl, rfl, ?_, ?_, ?_, ?_, ?_, ?_⟩
  · intro hb
    simp [Signal.locate, hb]
  · intro hb
    simp [Signal.locateSync, hb]
  · intro hb hres
    have hbf : (s.block == JsVal.undef) = false := by simp [hb]
    refine ⟨by simp [Signal.locate, hbf, hres], haddbn _ _, haddts _ _, ?_⟩
    intro hk1 hk2
    rw [addParams]
    simp only [List.foldl]
    rw [lookupKey_setKey_other _ _ _ _ hk2, lookupKey_setKey_other _ _ _ _ hk1]
  · intro hb hres
    have hbf : (s.block == JsVal.undef) = false := by simp [hb]
    refine ⟨by simp [Signal.locate, hbf, hres], located_clearLocation s,
      lookupKey_clearLocation_ts s.params, lookupKey_clearLocation_bn s.params, ?_⟩
    intro hk1 hk2
    exact lookupKey_clearLocation_other s.params k hk1 hk2
  · intro hb hres
    have hbf : (s.block == JsVal.undef) = false := by simp [hb]
    simp [Signal.locateSync, hbf, hres]
  · intro hb hres
    have hbf : (s.block == JsVal.undef) = false := by simp [hb]
    simp [Signal.locateSync, hbf, hres]

/-- Witness for C8: a successful async lookup on a concrete signal (with a
custom parameter "foo" and a stale timestamp), and a not-found sync lookup
clearing the location of the same signal. -/
theorem C8_locate_contract_witness :
    (⟨[], [("foo", .str "x".data), ("timestamp", .num 5)], .undef, .undef, .undef, .str "0xaa".data, 0⟩ : Signal).locate
        (some ⟨fun _ => some ⟨.num 100, .num 999⟩⟩) =
      .ok ({ (⟨[], [("foo", .str "x".data), ("timestamp", .num 5)], .undef, .undef, .undef, .str "0xaa".data, 0⟩ : Signal) with
              params := (addParams [("foo", .str "x".data), ("timestamp", .num 5)]
                [("blockNumber", .num 100), ("timestamp", .num 999)]) },
           .params (.num 100) (.num 999))
    ∧ lookupKey (addParams [("foo", .str "x".data), ("timestamp", .num 5)]
        [("blockNumber", .num 100), ("timestamp", .num 999)]) "blockNumber" = .num 100
    ∧ lookupKey (addParams [("foo", .str "x".data), ("timestamp", .num 5)]
        [("blockNumber", .num 100), ("timestamp", .num 999)]) "timestamp" = .num 999
    ∧ ("foo" ≠ "blockNumber" → "foo" ≠ "timestamp" →
        lookupKey (addParams [("foo", .str "x".data), ("timestamp", .num 5)]
          [("blockNumber", .num 100), ("timestamp", .num 999)]) "foo"
          = lookupKey [("foo", .str "x".data), ("timestamp", .num 5)] "foo") :=
  (C8_locate_contract
    ⟨[], [("foo", .str "x".data), ("timestamp", .num 5)], .undef, .undef, .undef, .str "0xaa".data, 0⟩
    ⟨fun _ => some ⟨.num 100, .num 999⟩⟩ ⟨fun _ _ => none⟩ .undef
    ⟨.num 100, .num 999⟩ ⟨.num 0, .num 0⟩ "foo").2.2.2.2.1 (by decide) rfl

theorem lookupKey_not_mem (ps : List (String × JsVal)) (k : String)
    (h : ps.all (fun p => !(p.1 == k)) = true) : lookupKey ps k = .undef := by
  induction ps with
  | nil => rfl
  | cons p t ih =>
    rw [List.all_cons, Bool.and_eq_true] at h
    obtain ⟨h1, h2⟩ := h
    have hne : p.1 ≠ k := by simpa using h1
    simp [lookupKey_cons, hne, ih h2]

/-- C9: verify and verifySync both fail with MissingSender when sender is
undefined; otherwise, after delegated verification with the world-bound
domain separator, both fail with SenderMismatch whenever the declared
sender is not strictly equal to the recovered author alias, and each
returns the signal itself when it is. -/
theorem C9_verify_contract (s : Signal) (al : JsVal)
    (vo : List DomainField → Except JsError JsVal)
    (vo2 : JsVal → List DomainField → Except JsError JsVal) (bn : JsVal) :
    (s.sender = .undef → s.verify vo = .error .missingSender
      ∧ s.verifySync vo2 bn = .error .missingSender)
    ∧ (s.sender ≠ .undef → vo [s.worldField] = .ok al →
        (jsStrictEq s.sender al = false → s.verify vo = .error .senderMismatch)
        ∧ (jsStrictEq s.sender al = true → s.verify vo = .ok s))
    ∧ (s.sender ≠ .undef → vo2 bn [s.worldField] = .ok al →
        (jsStrictEq s.sender al = false → s.verifySync vo2 bn = .error .senderMismatch)
        ∧ (jsStrictEq s.sender al = true → s.verifySync vo2 bn = .ok s)) := by
  refine ⟨?_, ?_, ?_⟩
  · intro h
    constructor
    · simp [Signal.verify, h]
    · simp [Signal.verifySync, h]
  · intro h hok
    have hf : (s.sender == JsVal.undef) = false := by simp [h]
    constructor
    · intro hne
      simp [Signal.verify, hf, hok, hne]
    · intro heq
      simp [Signal.verify, hf, hok, heq]
  · intro h hok
    have hf : (s.sender == JsVal.undef) = false := by simp [h]
    constructor
    · intro hne
      simp [Signal.verifySync, hf, hok, hne]
    · intro heq
      simp [Signal.verifySync, hf, hok, heq]

/-- Witness for C9 (Scenario E): declared sender "carol", recovered alias
"dave": verification fails with SenderMismatch. -/
theorem C9_verify_contract_witness :
    (⟨[], [], .str "carol".data, .undef, .undef, .undef, 0⟩ : Signal).verify
        (fun _ => .ok (.str "dave".data)) = .error .senderMismatch :=
  ((C9_verify_contract ⟨[], [], .str "carol".data, .undef, .undef, .undef, 0⟩
      (.str "dave".data) (fun _ => .ok (.str "dave".data))
      (fun _ _ => .ok (.str "dave".data)) .undef).2.1
    (by decide) rfl).1 (by decide)

/-- C10: sign, verify and verifySync always pass the signal's current world
parameter value, undefined when the world parameter was never set, as the
value of the injected "name" domain-separator field, and none of these
operations itself fails because world is undefined (given a defined and
matching sender, verification succeeds whatever world holds). -/
theorem C10_world_binding (s : Signal) (al : JsVal)
    (so vo : List DomainField → Except JsError JsVal)
    (vo2 : JsVal → List DomainField → Except JsError JsVal) (bn : JsVal) :
    (s.worldField = ⟨"name", "string", s.world⟩)
    ∧ (s.sign so = so [⟨"name", "string", s.world⟩])
    ∧ (s.params.all (fun p => !(p.1 == "world")) = true → s.world = .undef)
    ∧ (s.sender ≠ .undef → vo [⟨"name", "string", s.world⟩] = .ok al →
        jsStrictEq s.sender al = true → s.verify vo = .ok s)
    ∧ (s.sender ≠ .undef → vo2 bn [⟨"name", "string", s.world⟩] = .ok al →
        jsStrictEq s.sender al = true → s.verifySync vo2 bn = .ok s) := by
  refine ⟨rfl, rfl, fun h => lookupKey_not_mem s.params "world" h, ?_, ?_⟩
  · intro h hok heq
    have hf : (s.sender == JsVal.undef) = false := by simp [h]
    simp [Signal.verify, Signal.worldField, hf, hok, heq]
  · intro h hok heq
    have hf : (s.sender == JsVal.undef) = false := by simp [h]
    simp [Signal.verifySync, Signal.worldField, hf, hok, heq]

/-- Witness for C10: a signal without a world parameter signs with the
undefined world value and verifies successfully. -/
theorem C10_world_binding_witness :
    ((⟨[], [("sig", .num 1)], .str "carol".data, .undef, .undef, .undef, 0⟩ : Signal).sign
        (fun fs => .ok (.str (jsToString (List.head? fs |>.map DomainField.value |>.getD .undef))))
      = (fun fs : List DomainField =>
          .ok (.str (jsToString (List.head? fs |>.map DomainField.value |>.getD .undef))))
          [(⟨"name", "string",
            (⟨[], [("sig", .num 1)], .str "carol".data, .undef, .undef, .undef, 0⟩ : Signal).world⟩ : DomainField)])
    ∧ ((⟨[], [("sig", .num 1)], .str "carol".data, .undef, .undef, .undef, 0⟩ : Signal).params.all
        (fun p => !(p.1 == "world")) = true →
        (⟨[], [("sig", .num 1)], .str "carol".data, .undef, .undef, .undef, 0⟩ : Signal).world = .undef) :=
  ⟨((C10_world_binding ⟨[], [("sig", .num 1)], .str "carol".data, .undef, .undef, .undef, 0⟩
      .undef (fun fs => .ok (.str (jsToString (List.head? fs |>.map DomainField.value |>.getD .undef))))
      (fun fs => .ok (.str (jsToString (List.head? fs |>.map DomainField.value |>.getD .undef))))
      (fun _ _ => .ok .undef) .undef).2.1),
   ((C10_world_binding ⟨[], [("sig", .num 1)], .str "carol".data, .undef, .undef, .undef, 0⟩
      .undef (fun fs => .ok (.str (jsToString (List.head? fs |>.map DomainField.value |>.getD .undef))))
      (fun fs => .ok (.str (jsToString (List.head? fs |>.map DomainField.value |>.getD .undef))))
      (fun _ _ => .ok .undef) .undef).2.2.1)⟩

/-- C1, code evaluated at the failing input: clearCustomParams on a signal
whose parameter store holds a standard key ("sig") and a custom key ("foo")
raises ReferenceError (the body reads the undeclared identifier
standardParams; the declared local is standardKeys), instead of keeping the
standard key and dropping the custom one as specified. -/
theorem C1_clearCustomParams_referenceError :
    (⟨[], [("sig", .str "s".data), ("foo", .str "bar".data)], .undef, .undef, .undef, .undef, 0⟩ : Signal).clearCustomParams
      = .error .referenceError := rfl

/-- C2, code evaluated at the failing input: constructing with explicit
params that lack the mandatory sender raises no MissingRequiredParam error.
The guard tests typeof of the loop string itself (never "undefined"), so
construction succeeds, sender is undefined, and the composed consensus
string reads "undefined > vote > 3 > 0xaa". -/
theorem C2_missing_sender_not_rejected :
    missingRequiredCheck = false
    ∧ construct none
        (some { action := .str "vote".data, epoch := .str "3".data, block := .str "0xaa".data }) 7
      = .ok ⟨[("@", .str "undefined > vote > 3 > 0xaa".data)], [],
             .undef, .str "vote".data, .str "3".data, .str "0xaa".data, 7⟩ := by decide

end SatSignal
